import Mathlib

/-!
Verification of the OneLondon FHIR terminology client
(`src/scripts/onto.py`, `src/scripts/auth.py`, `src/scripts/get_access_token.py`).

The Python code is shallowly embedded: JSON bodies are an inductive type,
Python exceptions are values of `PyErr` carried by `Except`, wall-clock time
is an `Int` parameter, and the network is an explicit environment (`Env`)
mapping each request to its outcome.  Every client operation returns, besides
its result, the final client state and the ordered list of network requests it
performed, so that call-order properties (token fetch before resource fetch)
are statable.
-/

namespace OntoClient

/-- Parsed JSON values, as produced by `response.json()` in the Python code. -/
inductive JSON where
  | null
  | bool (b : Bool)
  | num (n : Int)
  | str (s : String)
  | arr (xs : List JSON)
  | obj (fields : List (String × JSON))

/-- The Python exceptions that the embedded code can raise. -/
inductive PyErr where
  | indexError
  | keyError (k : String)
  | valueError (msg : String)
  | typeError (msg : String)
  | attributeError (msg : String)

/-- Python `d.get(key, default)`: on a dict, the value under `key` (or
`default` when absent); on any non-dict value an `AttributeError`, since only
dicts have a `.get` method. -/
def pyGetDefault : JSON → String → JSON → Except PyErr JSON
  | .obj fields, key, dflt => .ok ((fields.lookup key).getD dflt)
  | _, _, _ => .error (.attributeError "get")

/-- Python `d[key]` with a string key: on a dict, the value under `key` or a
`KeyError`; on anything else a `TypeError` (string indices into lists or
strings are type errors in Python). -/
def pyBracket : JSON → String → Except PyErr JSON
  | .obj fields, key =>
    match fields.lookup key with
    | some v => .ok v
    | none => .error (.keyError key)
  | _, _ => .error (.typeError "indices must be integers")

/-- Python `x[0]`: first element of a list (or character of a string), an
`IndexError` when empty, a `KeyError` when `x` is a dict without key `0`, and
a `TypeError` on non-subscriptable values. -/
def pySubscript0 : JSON → Except PyErr JSON
  | .arr [] => .error .indexError
  | .arr (x :: _) => .ok x
  | .str s =>
    match s.data with
    | [] => .error .indexError
    | c :: _ => .ok (.str (String.mk [c]))
  | .obj _ => .error (.keyError "0")
  | _ => .error (.typeError "not subscriptable")

/-- Python `for item in x`: iterating a list yields its elements, a string
yields its characters, a dict yields its keys; other values are not iterable. -/
def pyIter : JSON → Except PyErr (List JSON)
  | .arr xs => .ok xs
  | .str s => .ok (s.data.map (fun c => JSON.str (String.mk [c])))
  | .obj fields => .ok (fields.map (fun p => JSON.str p.1))
  | _ => .error (.typeError "not iterable")

/-- Python truthiness (`if not x`) for JSON values. -/
def pyTruthy : JSON → Bool
  | .null => false
  | .bool b => b
  | .num n => decide (n ≠ 0)
  | .str s => decide (s ≠ "")
  | .arr [] => false
  | .arr (_ :: _) => true
  | .obj [] => false
  | .obj (_ :: _) => true

/-- Truthiness of `os.getenv` results (`None` and `""` are falsy). -/
def pyTruthyOptStr : Option String → Bool
  | none => false
  | some s => decide (s ≠ "")

/-- The concept-code extraction shared by both retrieval paths of
`src/scripts/onto.py` (lines 120-123 and 164-172):

`value_set.get("compose", {}).get("include", [])[0].get("concept", [])`
followed by `[item.get("code", "no code listed") for item in concepts]`.

Note the `[0]` subscript: when `include` is absent or the empty list, the
default `[]` is indexed and an `IndexError` is raised. -/
def extract_concept_codes (value_set : JSON) : Except PyErr (List JSON) := do
  let compose ← pyGetDefault value_set "compose" (.obj [])
  let includes ← pyGetDefault compose "include" (.arr [])
  let firstInclude ← pySubscript0 includes
  let concepts ← pyGetDefault firstInclude "concept" (.arr [])
  let items ← pyIter concepts
  items.mapM (fun item => pyGetDefault item "code" (.str "no code listed"))

/-- An HTTP response as observed through `requests`: status code and the
parsed JSON body.  (Bodies that are not valid JSON are outside the model;
every claim quantifies over parsed response bodies.) -/
structure HttpResponse where
  status_code : Nat
  body : JSON

/-- Outcome of the POST to the token endpoint: either the connection itself
fails (`requests.RequestException` from `requests.post`) or a response comes
back. -/
inductive TokenNetResult where
  | connError
  | response (r : HttpResponse)

/-- The network environment: what the token endpoint answers, and what a GET
of each URL answers. -/
structure Env where
  tokenResult : TokenNetResult
  getResponse : String → HttpResponse

/-- One network request performed by the client, in order of occurrence.
`tokenPost` is the OAuth2 POST of `_get_access_token`; `httpGet` is a
resource GET carrying the bearer token used in its Authorization header. -/
inductive NetEvent where
  | tokenPost (url : String)
  | httpGet (url : String) (bearer : JSON)

/-- Recogniser for token-endpoint POSTs in a trace. -/
def isTokenPost : NetEvent → Bool
  | .tokenPost _ => true
  | .httpGet _ _ => false

/-- Recogniser for resource GETs in a trace. -/
def isResourceGet : NetEvent → Bool
  | .tokenPost _ => false
  | .httpGet _ _ => true

/-- The fields of a `FHIRTerminologyClient` instance
(`src/scripts/onto.py` lines 48-63). -/
structure ClientState where
  client_id : String
  client_secret : String
  endpoint : String
  open_id_token_url : String
  access_token : JSON
  access_token_expire_time : Int

/-- Result of `FHIRTerminologyClient._get_access_token`
(`src/scripts/onto.py` lines 68-99) given the token endpoint's answer.
`requests.RequestException` (connection failure or the `HTTPError` from
`raise_for_status` on a 4xx/5xx status) is caught and re-raised as
`ValueError("Failed to retrieve access token.")`; a missing
`access_token` or `expires_in` key raises an uncaught `KeyError`.  On success
the pair `(access_token, round(time.time()) + expires_in)` is returned. -/
def get_access_token_result (env : Env) (now : Int) : Except PyErr (JSON × Int) :=
  match env.tokenResult with
  | .connError => .error (.valueError "Failed to retrieve access token.")
  | .response r =>
    if 400 ≤ r.status_code ∧ r.status_code < 600 then
      .error (.valueError "Failed to retrieve access token.")
    else do
      let tok ← pyBracket r.body "access_token"
      let ein ← pyBracket r.body "expires_in"
      match ein with
      | .num n => .ok (tok, now + n)
      | _ => .error (.typeError "unsupported operand")

/-- `FHIRTerminologyClient._initialise_access_token`
(`src/scripts/onto.py` lines 65-66): one POST to the token endpoint; on
success the stored token and expiry are replaced wholesale. -/
def initialise_access_token (st : ClientState) (env : Env) (now : Int) :
    Except PyErr ClientState × List NetEvent :=
  (match get_access_token_result env now with
   | .ok p => .ok { st with access_token := p.1, access_token_expire_time := p.2 }
   | .error e => .error e,
   [NetEvent.tokenPost st.open_id_token_url])

/-- The `auto_refresh_token` decorator (`src/scripts/onto.py` lines 12-24):
before the wrapped method body runs, `if time.time() >
self._access_token_expire_time` triggers `_initialise_access_token`; the body
then runs on the (possibly refreshed) state.  A failed refresh propagates and
the body never runs. -/
def auto_refresh_wrap {α : Type} (env : Env) (now : Int) (st : ClientState)
    (f : ClientState → Except PyErr α × List NetEvent) :
    Except PyErr α × ClientState × List NetEvent :=
  if st.access_token_expire_time < now then
    match initialise_access_token st env now with
    | (.ok st2, evs) => ((f st2).1, st2, evs ++ (f st2).2)
    | (.error e, evs) => (.error e, st, evs)
  else ((f st).1, st, (f st).2)

/-- Body of `FHIRTerminologyClient.retrieve_concept_codes_from_id`
(`src/scripts/onto.py` lines 101-128), without the decorator: one GET of
`{endpoint}ValueSet/{value_set_id}`; on status 200 the extraction runs
unprotected (its `IndexError` propagates), otherwise the failure is printed
and `[]` returned. -/
def retrieve_concept_codes_from_id_body (st : ClientState) (env : Env)
    (value_set_id : String) : Except PyErr (List JSON) × List NetEvent :=
  let url := st.endpoint ++ "ValueSet/" ++ value_set_id
  let r := env.getResponse url
  if r.status_code = 200 then
    (extract_concept_codes r.body, [NetEvent.httpGet url st.access_token])
  else
    (.ok [], [NetEvent.httpGet url st.access_token])

/-- `FHIRTerminologyClient.retrieve_concept_codes_from_id` with its
`auto_refresh_token` decorator applied. -/
def retrieve_concept_codes_from_id (st : ClientState) (env : Env) (now : Int)
    (value_set_id : String) :
    Except PyErr (List JSON) × ClientState × List NetEvent :=
  auto_refresh_wrap env now st
    (fun s => retrieve_concept_codes_from_id_body s env value_set_id)

/-- Body of `FHIRTerminologyClient.retrieve_concept_codes_from_desc`
(`src/scripts/onto.py` lines 130-187), without the decorator.  The
`query_type` guard raises `ValueError` for values outside url/name.  On a 200
bundle, the `try` block reads `bundle["entry"][0]["fullUrl"]` (a missing
`entry` key is an uncaught `KeyError`; an empty `entry` list is an
`IndexError`), GETs the full URL, and on 200 runs the extraction; the `except
IndexError` turns any `IndexError` raised inside the block into `[]`. -/
def retrieve_concept_codes_from_desc_body (st : ClientState) (env : Env)
    (query_value query_type : String) : Except PyErr (List JSON) × List NetEvent :=
  if query_type = "url" ∨ query_type = "name" then
    let query_url := st.endpoint ++ "ValueSet/?" ++ query_type ++ "=" ++ query_value
    let br := env.getResponse query_url
    if br.status_code = 200 then
      let inner : Except PyErr (List JSON) × List NetEvent :=
        match pyBracket br.body "entry" with
        | .error e => (.error e, [])
        | .ok entries =>
          match pySubscript0 entries with
          | .error e => (.error e, [])
          | .ok firstEntry =>
            match pyBracket firstEntry "fullUrl" with
            | .error e => (.error e, [])
            | .ok fullUrlJ =>
              match fullUrlJ with
              | .str full_url =>
                let r := env.getResponse full_url
                if r.status_code = 200 then
                  (extract_concept_codes r.body,
                   [NetEvent.httpGet full_url st.access_token])
                else
                  (.ok [], [NetEvent.httpGet full_url st.access_token])
              | _ => (.error (.typeError "url must be a string"), [])
      match inner with
      | (.error PyErr.indexError, evs) =>
        (.ok [], NetEvent.httpGet query_url st.access_token :: evs)
      | (res, evs) => (res, NetEvent.httpGet query_url st.access_token :: evs)
    else
      (.ok [], [NetEvent.httpGet query_url st.access_token])
  else
    (.error (.valueError "Invalid query_type. Use 'url' or 'name'."), [])

/-- `FHIRTerminologyClient.retrieve_concept_codes_from_desc` with its
decorator applied; `query_type` carries the Python default `"url"`. -/
def retrieve_concept_codes_from_desc (st : ClientState) (env : Env) (now : Int)
    (query_value : String) (query_type : String := "url") :
    Except PyErr (List JSON) × ClientState × List NetEvent :=
  auto_refresh_wrap env now st
    (fun s => retrieve_concept_codes_from_desc_body s env query_value query_type)

/-- `FHIRTerminologyClient.__init__` (`src/scripts/onto.py` lines 48-63):
stores the credentials and endpoints, then performs the single eager
`_initialise_access_token`.  The token fields carry placeholder values only
until that call returns (in the source they are bare annotations, unset until
then); on a fetch failure construction fails and no state is observable. -/
def FHIRTerminologyClient_init (client_id client_secret endpoint open_id_token_url : String)
    (env : Env) (now : Int) : Except PyErr ClientState × List NetEvent :=
  initialise_access_token
    { client_id := client_id, client_secret := client_secret,
      endpoint := endpoint, open_id_token_url := open_id_token_url,
      access_token := JSON.null, access_token_expire_time := 0 }
    env now

/-- `get_access_token` from `src/scripts/auth.py` (lines 4-44).  The `try`
block covers the POST and `raise_for_status`, and `except
requests.RequestException` prints and **returns None** — both for a
connection failure and for a 4xx/5xx status.  A missing or falsy
`access_token` raises `ValueError("Failed to find access token.")`, which is
not a `RequestException` and propagates. -/
def auth_get_access_token (client_id client_secret : Option String)
    (netResult : TokenNetResult) : Except PyErr (Option JSON) :=
  if pyTruthyOptStr client_id = false ∨ pyTruthyOptStr client_secret = false then
    .error (.valueError "Client ID and/or Client Secret not set in environment variables.")
  else
    match netResult with
    | .connError => .ok none
    | .response r =>
      if 400 ≤ r.status_code ∧ r.status_code < 600 then .ok none
      else
        match r.body with
        | .obj fields =>
          match fields.lookup "access_token" with
          | some tok =>
            if pyTruthy tok then .ok (some tok)
            else .error (.valueError "Failed to find access token.")
          | none => .error (.valueError "Failed to find access token.")
        | _ => .error (.attributeError "get")

/-- Modelled from the spec: the sources under `src/` contain no `raw_query`
method on `FHIRTerminologyClient`; spec section 4.2 describes it as an
operation that "ensures valid token, performs a GET to an arbitrary
caller-supplied URL with bearer auth, returns the parsed JSON body on 200 or
an empty object plus a reported failure otherwise", going through the same
token-refresh gate as the other operations. -/
def raw_query (st : ClientState) (env : Env) (now : Int) (url : String) :
    Except PyErr JSON × ClientState × List NetEvent :=
  auto_refresh_wrap env now st
    (fun s =>
      if (env.getResponse url).status_code = 200 then
        (.ok (env.getResponse url).body, [NetEvent.httpGet url s.access_token])
      else
        (.ok (JSON.obj []), [NetEvent.httpGet url s.access_token]))

/-! Concrete fixtures used to evaluate the embedded operations. -/

/-- A client state holding a token that is still valid at the times used in
the evaluations below. -/
def stFresh : ClientState :=
  { client_id := "cid", client_secret := "secret",
    endpoint := "https://onto/fhir/",
    open_id_token_url := "https://onto/token",
    access_token := JSON.str "tok", access_token_expire_time := 1000 }

/-- A well-formed token-endpoint response body. -/
def tokenOkBody : JSON :=
  .obj [("access_token", .str "newtok"), ("expires_in", .num 300)]

/-- A ValueSet body whose first include holds concepts A, B and one concept
with no code field. -/
def valueSetABBody : JSON :=
  .obj [("compose", .obj [("include", .arr [
    .obj [("concept", .arr [
      .obj [("code", .str "A")],
      .obj [("code", .str "B")],
      .obj []])]])])]

/-- Environment: every GET answers 200 with `valueSetABBody`. -/
def envValueSetAB : Env :=
  { tokenResult := .response ⟨200, tokenOkBody⟩,
    getResponse := fun _ => ⟨200, valueSetABBody⟩ }

/-- Environment: every GET answers 200 with a ValueSet whose
`compose.include` is the empty list. -/
def envEmptyInclude : Env :=
  { tokenResult := .response ⟨200, tokenOkBody⟩,
    getResponse := fun _ => ⟨200, .obj [("compose", .obj [("include", .arr [])])]⟩ }

/-- Environment: every GET answers 200 with the empty JSON object. -/
def envEmptyObj : Env :=
  { tokenResult := .response ⟨200, tokenOkBody⟩,
    getResponse := fun _ => ⟨200, .obj []⟩ }

/-- Environment: every GET answers 200 with a Bundle that has no `entry`
field (the shape a FHIR server returns for a search with zero matches). -/
def envBundleNoEntry : Env :=
  { tokenResult := .response ⟨200, tokenOkBody⟩,
    getResponse := fun _ =>
      ⟨200, .obj [("resourceType", .str "Bundle"), ("total", .num 0)]⟩ }

/-- Environment: every GET answers 200 with a Bundle whose `entry` field is
the empty list. -/
def envBundleEmptyEntry : Env :=
  { tokenResult := .response ⟨200, tokenOkBody⟩,
    getResponse := fun _ => ⟨200, .obj [("entry", .arr [])]⟩ }

/-- Environment: the search GET answers a one-entry Bundle pointing at
`https://x/ValueSet/42`, and that URL answers 200 with an empty object (a
ValueSet without `compose`). -/
def envSearchThenEmptyValueSet : Env :=
  { tokenResult := .response ⟨200, tokenOkBody⟩,
    getResponse := fun u =>
      if u = "https://x/ValueSet/42" then ⟨200, .obj []⟩
      else ⟨200, .obj [("entry", .arr [.obj [("fullUrl", .str "https://x/ValueSet/42")]])]⟩ }

/-- Environment whose token endpoint is unreachable. -/
def envTokenConnError : Env :=
  { tokenResult := .connError, getResponse := fun _ => ⟨200, .obj []⟩ }

/-- A client state whose token expired at time 10. -/
def stExpired : ClientState := { stFresh with access_token_expire_time := 10 }

/-- A client state whose token expires exactly at time 50. -/
def stBoundary : ClientState := { stFresh with access_token_expire_time := 50 }

/-- Environment: the token endpoint works, every resource GET answers 404. -/
def env404 : Env :=
  { tokenResult := .response ⟨200, tokenOkBody⟩,
    getResponse := fun _ => ⟨404, .obj [("issue", .str "not found")]⟩ }

/-- A sample token-gated operation body: one resource GET carrying the
current bearer token. -/
def fDemo : ClientState → Except PyErr (List JSON) × List NetEvent :=
  fun s => (Except.ok [], [NetEvent.httpGet "https://onto/fhir/ValueSet/vs1" s.access_token])

/-- The state `stExpired` after a refresh at time 60 against `tokenOkBody`. -/
def stRefreshed : ClientState :=
  { stExpired with access_token := JSON.str "newtok",
                   access_token_expire_time := 60 + 300 }

/-- C7: for the ValueSet whose `compose.include[0].concept` is
`[{"code":"A"},{"code":"B"},{}]`, a 200 retrieval by id yields exactly
`["A","B","no code listed"]` in source order: each concept maps to its code,
a concept without a code maps to the exact sentinel string, no entry is
dropped. -/
theorem claim_C7_round_trip :
    (retrieve_concept_codes_from_id stFresh envValueSetAB 0 "vs1").1
      = Except.ok [JSON.str "A", JSON.str "B", JSON.str "no code listed"] := rfl

/-- C1: evaluation showing the claim false on the code.  On a 200 response
whose body is a ValueSet with an empty `compose.include`,
`retrieve_concept_codes_from_id` raises an uncaught `IndexError` instead of
returning a sequence; and on a 200 search response whose Bundle lacks the
`entry` field, `retrieve_concept_codes_from_desc` raises an uncaught
`KeyError` — neither is an AuthenticationError or ValidationError. -/
theorem claim_C1_retrieval_raises :
    (retrieve_concept_codes_from_id stFresh envEmptyInclude 0 "vs1").1
        = Except.error PyErr.indexError
  ∧ (retrieve_concept_codes_from_desc stFresh envBundleNoEntry 0 "asthma").1
        = Except.error (PyErr.keyError "entry") :=
  ⟨rfl, rfl⟩

/-- C2: evaluation showing the claim false on the code.  The extraction
applied to a body with `compose` absent raises `IndexError`, and so does
`retrieve_concept_codes_from_id` on a 200 response carrying that body; by
contrast the same body reached through `retrieve_concept_codes_from_desc`
yields `[]`, because there (and only there) an `except IndexError` guards the
extraction. -/
theorem claim_C2_extraction_raises :
    extract_concept_codes (JSON.obj []) = Except.error PyErr.indexError
  ∧ (retrieve_concept_codes_from_id stFresh envEmptyObj 0 "vs1").1
        = Except.error PyErr.indexError
  ∧ (retrieve_concept_codes_from_desc stFresh envSearchThenEmptyValueSet 0 "asthma").1
        = Except.ok [] :=
  ⟨rfl, rfl, rfl⟩

/-- C3: evaluation showing the claim false on the code for one of the two
zero-entry shapes.  A 200 Bundle with `entry = []` does return `[]` (the
`IndexError` from `entry[0]` is caught), but a 200 Bundle with no `entry`
field at all raises an uncaught `KeyError("entry")`, since the handler
catches only `IndexError`. -/
theorem claim_C3_bundle_without_entry_raises :
    (retrieve_concept_codes_from_desc stFresh envBundleNoEntry 0 "asthma").1
        = Except.error (PyErr.keyError "entry")
  ∧ (retrieve_concept_codes_from_desc stFresh envBundleEmptyEntry 0 "asthma").1
        = Except.ok [] :=
  ⟨rfl, rfl⟩

/-- C6: evaluation showing the claim false on `scripts/auth.py`.  With both
credentials set, `auth.get_access_token` returns `None` both when the POST
raises a connection error and when the endpoint answers HTTP 401 — the very
logged-and-swallowed `None` the claim rules out.  The class-based
`_get_access_token` in `scripts/onto.py`, by contrast, does raise on a
connection error. -/
theorem claim_C6_auth_returns_none :
    auth_get_access_token (some "id") (some "secret") .connError = Except.ok none
  ∧ auth_get_access_token (some "id") (some "secret")
        (.response ⟨401, .obj [("error", .str "invalid_client")]⟩) = Except.ok none
  ∧ get_access_token_result envTokenConnError 0
        = Except.error (PyErr.valueError "Failed to retrieve access token.") :=
  ⟨rfl, rfl, rfl⟩

/-- Helper: a token-endpoint answer with a sub-400 status and both required
fields yields the token and the expiry `now + expires_in`. -/
theorem get_access_token_result_ok (env : Env) (now : Int) (r : HttpResponse)
    (tok : JSON) (n : Int)
    (henv : env.tokenResult = .response r) (hst : r.status_code < 400)
    (htok : pyBracket r.body "access_token" = .ok tok)
    (hexp : pyBracket r.body "expires_in" = .ok (.num n)) :
    get_access_token_result env now = .ok (tok, now + n) := by
  have h400 : ¬(400 ≤ r.status_code ∧ r.status_code < 600) := by omega
  simp only [get_access_token_result, henv, if_neg h400, bind, Except.bind, htok, hexp]

/-- Helper: behaviour of the `auto_refresh_token` decorator when the token
endpoint would answer well-formedly.  If the stored expiry has not been
passed (`now ≤ expires_at`, including `now = expires_at`) the wrapped body
runs on the unchanged state and the trace holds no token fetch; if it has
been passed strictly, exactly one token fetch happens, its event precedes all
of the body's requests, and the body runs on the refreshed state whose expiry
is `now + expires_in`. -/
theorem auto_refresh_wrap_eq {α : Type} (env : Env) (now : Int) (st : ClientState)
    (f : ClientState → Except PyErr α × List NetEvent) (r : HttpResponse)
    (tok : JSON) (n : Int)
    (henv : env.tokenResult = .response r) (hst : r.status_code < 400)
    (htok : pyBracket r.body "access_token" = .ok tok)
    (hexp : pyBracket r.body "expires_in" = .ok (.num n)) :
    auto_refresh_wrap env now st f
      = if st.access_token_expire_time < now
        then ((f { st with access_token := tok, access_token_expire_time := now + n }).1,
              { st with access_token := tok, access_token_expire_time := now + n },
              NetEvent.tokenPost st.open_id_token_url
                :: (f { st with access_token := tok, access_token_expire_time := now + n }).2)
        else ((f st).1, st, (f st).2) := by
  have hres := get_access_token_result_ok env now r tok n henv hst htok hexp
  unfold auto_refresh_wrap initialise_access_token
  rw [hres]
  by_cases h : st.access_token_expire_time < now
  · simp only [if_pos h]
    rfl
  · simp only [if_neg h]

/-- C5 counterexample: at `now = expires_at` (so `now ≥ expires_at`, the
moment the claim calls expired) a token-gated operation performs no token
refresh at all and leaves the stored token in place, where the claim
requires exactly one refresh. -/
theorem claim_C5_counterexample :
    (50 : Int) ≥ stBoundary.access_token_expire_time
  ∧ (retrieve_concept_codes_from_id stBoundary env404 50 "vs1").2.1 = stBoundary
  ∧ ((retrieve_concept_codes_from_id stBoundary env404 50 "vs1").2.2.countP isTokenPost) = 0 :=
  ⟨by decide, rfl, rfl⟩

/-- C5 (amended): for every token-gated operation (every body run under the
`auto_refresh_token` decorator), when the token endpoint would answer with a
sub-400 status and both required fields: if `now ≤ expires_at` the stored
token is used unchanged with no token fetch; if `now > expires_at` (strictly
past expiry — the code refreshes only then, not at `now = expires_at`)
exactly one token refresh is performed, completing before the operation's
resource HTTP calls, and the refreshed expiry equals `now + expires_in` from
the token response. -/
theorem claim_C5_amended {α : Type} (env : Env) (now : Int) (st : ClientState)
    (f : ClientState → Except PyErr α × List NetEvent) (r : HttpResponse)
    (tok : JSON) (n : Int)
    (henv : env.tokenResult = .response r) (hst : r.status_code < 400)
    (htok : pyBracket r.body "access_token" = .ok tok)
    (hexp : pyBracket r.body "expires_in" = .ok (.num n)) :
    auto_refresh_wrap env now st f
      = if st.access_token_expire_time < now
        then ((f { st with access_token := tok, access_token_expire_time := now + n }).1,
              { st with access_token := tok, access_token_expire_time := now + n },
              NetEvent.tokenPost st.open_id_token_url
                :: (f { st with access_token := tok, access_token_expire_time := now + n }).2)
        else ((f st).1, st, (f st).2) :=
  auto_refresh_wrap_eq env now st f r tok n henv hst htok hexp

/-- C5 witness: the amended statement at an expired state, time 60, and a
token response granting 300 seconds. -/
theorem claim_C5_witness :
    auto_refresh_wrap envValueSetAB 60 stExpired fDemo
      = if stExpired.access_token_expire_time < 60
        then ((fDemo stRefreshed).1, stRefreshed,
              NetEvent.tokenPost stExpired.open_id_token_url :: (fDemo stRefreshed).2)
        else ((fDemo stExpired).1, stExpired, (fDemo stExpired).2) :=
  claim_C5_amended envValueSetAB 60 stExpired fDemo ⟨200, tokenOkBody⟩
    (JSON.str "newtok") 300 rfl (by decide) rfl rfl

/-- C4 counterexample: with a token that is expired at call time and an
invalid `query_type`, the call does raise the ValidationError, but its trace
holds a token-endpoint POST — a network call performed before the error,
which the claim forbids regardless of expiry state. -/
theorem claim_C4_counterexample :
    stExpired.access_token_expire_time < 20
  ∧ (retrieve_concept_codes_from_desc stExpired envValueSetAB 20 "asthma" "bogus").1
        = Except.error (PyErr.valueError "Invalid query_type. Use 'url' or 'name'.")
  ∧ (retrieve_concept_codes_from_desc stExpired envValueSetAB 20 "asthma" "bogus").2.2
        = [NetEvent.tokenPost stExpired.open_id_token_url] :=
  ⟨by decide, rfl, rfl⟩

/-- C4 (amended): for every `query_type` outside url/name, when the token
endpoint would answer well-formedly, `retrieve_concept_codes_from_desc`
raises the ValidationError and performs no resource HTTP call; however,
because the `auto_refresh_token` decorator runs before the guard, a token
fetch may precede the error when the token is expired at call time. -/
theorem claim_C4_amended (st : ClientState) (env : Env) (now : Int)
    (qv qt : String) (r : HttpResponse) (tok : JSON) (n : Int)
    (h1 : qt ≠ "url") (h2 : qt ≠ "name")
    (henv : env.tokenResult = .response r) (hst : r.status_code < 400)
    (htok : pyBracket r.body "access_token" = .ok tok)
    (hexp : pyBracket r.body "expires_in" = .ok (.num n)) :
    (retrieve_concept_codes_from_desc st env now qv qt).1
        = Except.error (PyErr.valueError "Invalid query_type. Use 'url' or 'name'.")
  ∧ ((retrieve_concept_codes_from_desc st env now qv qt).2.2.all
        (fun ev => !isResourceGet ev)) = true := by
  have hq : ¬(qt = "url" ∨ qt = "name") := by
    rintro (h | h)
    · exact h1 h
    · exact h2 h
  have hbody : ∀ s : ClientState, retrieve_concept_codes_from_desc_body s env qv qt
      = (Except.error (PyErr.valueError "Invalid query_type. Use 'url' or 'name'."), []) := by
    intro s
    unfold retrieve_concept_codes_from_desc_body
    rw [if_neg hq]
  have h0 : retrieve_concept_codes_from_desc st env now qv qt
      = auto_refresh_wrap env now st
          (fun s => retrieve_concept_codes_from_desc_body s env qv qt) := rfl
  have heq := auto_refresh_wrap_eq env now st
    (fun s => retrieve_concept_codes_from_desc_body s env qv qt) r tok n henv hst htok hexp
  rw [h0, heq]
  by_cases h : st.access_token_expire_time < now
  · simp only [if_pos h, hbody]
    exact ⟨trivial, rfl⟩
  · simp only [if_neg h, hbody]
    exact ⟨trivial, rfl⟩

/-- C4 witness: the amended statement at an expired state, time 20, query
type "bogus". -/
theorem claim_C4_witness :
    (retrieve_concept_codes_from_desc stExpired envValueSetAB 20 "asthma" "bogus").1
        = Except.error (PyErr.valueError "Invalid query_type. Use 'url' or 'name'.")
  ∧ ((retrieve_concept_codes_from_desc stExpired envValueSetAB 20 "asthma" "bogus").2.2.all
        (fun ev => !isResourceGet ev)) = true :=
  claim_C4_amended stExpired envValueSetAB 20 "asthma" "bogus" ⟨200, tokenOkBody⟩
    (JSON.str "newtok") 300 (by decide) (by decide) rfl (by decide) rfl rfl

/-- C8: construction performs exactly one token fetch (the trace is a single
token-endpoint POST), stores the token with expiry `now + expires_in`, which
is strictly in the future when the granted lifetime is positive; and when the
fetch fails, construction fails with that error — again after exactly one
fetch attempt. -/
theorem claim_C8_init (cid cs ep tku : String) (env env2 : Env) (now now2 : Int)
    (r : HttpResponse) (tok : JSON) (n : Int) (e : PyErr)
    (henv : env.tokenResult = .response r) (hst : r.status_code < 400)
    (htok : pyBracket r.body "access_token" = .ok tok)
    (hexp : pyBracket r.body "expires_in" = .ok (.num n)) (hn : 0 < n)
    (hfail : get_access_token_result env2 now2 = .error e) :
    FHIRTerminologyClient_init cid cs ep tku env now
      = (Except.ok { client_id := cid, client_secret := cs, endpoint := ep,
                     open_id_token_url := tku, access_token := tok,
                     access_token_expire_time := now + n },
         [NetEvent.tokenPost tku])
  ∧ now < now + n
  ∧ FHIRTerminologyClient_init cid cs ep tku env2 now2
      = (Except.error e, [NetEvent.tokenPost tku]) := by
  have hres := get_access_token_result_ok env now r tok n henv hst htok hexp
  refine ⟨?_, by omega, ?_⟩
  · unfold FHIRTerminologyClient_init initialise_access_token
    rw [hres]
  · unfold FHIRTerminologyClient_init initialise_access_token
    rw [hfail]

/-- C8 witness: construction at time 60 against a token endpoint granting 300
seconds, and failing construction against an unreachable token endpoint. -/
theorem claim_C8_witness :
    FHIRTerminologyClient_init "cid" "secret" "https://onto/fhir/" "https://onto/token"
        envValueSetAB 60
      = (Except.ok { client_id := "cid", client_secret := "secret",
                     endpoint := "https://onto/fhir/",
                     open_id_token_url := "https://onto/token",
                     access_token := JSON.str "newtok",
                     access_token_expire_time := 60 + 300 },
         [NetEvent.tokenPost "https://onto/token"])
  ∧ (60 : Int) < 60 + 300
  ∧ FHIRTerminologyClient_init "cid" "secret" "https://onto/fhir/" "https://onto/token"
        envTokenConnError 0
      = (Except.error (PyErr.valueError "Failed to retrieve access token."),
         [NetEvent.tokenPost "https://onto/token"]) :=
  claim_C8_init "cid" "secret" "https://onto/fhir/" "https://onto/token"
    envValueSetAB envTokenConnError 60 0 ⟨200, tokenOkBody⟩ (JSON.str "newtok") 300
    (PyErr.valueError "Failed to retrieve access token.")
    rfl (by decide) rfl rfl (by decide) rfl

/-- C9: `raw_query` goes through the token-refresh gate (a token fetch
happens, before the GET, exactly when the token is expired and the endpoint
answers well-formedly), performs a single GET of the caller-supplied URL with
the current bearer token in its Authorization header, and returns the parsed
body on 200 or the empty object otherwise. -/
theorem claim_C9_raw_query (st : ClientState) (env : Env) (now : Int) (url : String)
    (r : HttpResponse) (tok : JSON) (n : Int)
    (henv : env.tokenResult = .response r) (hst : r.status_code < 400)
    (htok : pyBracket r.body "access_token" = .ok tok)
    (hexp : pyBracket r.body "expires_in" = .ok (.num n)) :
    raw_query st env now url
      = if st.access_token_expire_time < now
        then ((if (env.getResponse url).status_code = 200
               then Except.ok (env.getResponse url).body
               else Except.ok (JSON.obj [])),
              { st with access_token := tok, access_token_expire_time := now + n },
              [NetEvent.tokenPost st.open_id_token_url, NetEvent.httpGet url tok])
        else ((if (env.getResponse url).status_code = 200
               then Except.ok (env.getResponse url).body
               else Except.ok (JSON.obj [])),
              st, [NetEvent.httpGet url st.access_token]) := by
  have heq := auto_refresh_wrap_eq env now st
    (fun s =>
      if (env.getResponse url).status_code = 200 then
        (Except.ok (env.getResponse url).body, [NetEvent.httpGet url s.access_token])
      else
        (Except.ok (JSON.obj []), [NetEvent.httpGet url s.access_token]))
    r tok n henv hst htok hexp
  have h0 : raw_query st env now url
      = auto_refresh_wrap env now st
          (fun s =>
            if (env.getResponse url).status_code = 200 then
              (Except.ok (env.getResponse url).body, [NetEvent.httpGet url s.access_token])
            else
              (Except.ok (JSON.obj []), [NetEvent.httpGet url s.access_token])) := rfl
  rw [h0, heq]
  by_cases h : st.access_token_expire_time < now
  · by_cases hc : (env.getResponse url).status_code = 200
    · simp only [if_pos h, if_pos hc]
    · simp only [if_pos h, if_neg hc]
  · by_cases hc : (env.getResponse url).status_code = 200
    · simp only [if_neg h, if_pos hc]
    · simp only [if_neg h, if_neg hc]

/-- C9 witness: `raw_query` at an expired state and time 60, against an
environment answering 200 everywhere. -/
theorem claim_C9_witness :
    raw_query stExpired envValueSetAB 60 "https://x/custom"
      = if stExpired.access_token_expire_time < 60
        then ((if (envValueSetAB.getResponse "https://x/custom").status_code = 200
               then Except.ok (envValueSetAB.getResponse "https://x/custom").body
               else Except.ok (JSON.obj [])),
              { stExpired with access_token := JSON.str "newtok",
                               access_token_expire_time := 60 + 300 },
              [NetEvent.tokenPost stExpired.open_id_token_url,
               NetEvent.httpGet "https://x/custom" (JSON.str "newtok")])
        else ((if (envValueSetAB.getResponse "https://x/custom").status_code = 200
               then Except.ok (envValueSetAB.getResponse "https://x/custom").body
               else Except.ok (JSON.obj [])),
              stExpired,
              [NetEvent.httpGet "https://x/custom" stExpired.access_token]) :=
  claim_C9_raw_query stExpired envValueSetAB 60 "https://x/custom" ⟨200, tokenOkBody⟩
    (JSON.str "newtok") 300 rfl (by decide) rfl rfl

/-- C10: a call of `retrieve_concept_codes_from_desc` that omits `query_type`
behaves exactly as the call with `query_type = "url"`: the parameter carries
the silent default `"url"`. -/
theorem claim_C10_default_query_type (st : ClientState) (env : Env) (now : Int)
    (query_value : String) :
    retrieve_concept_codes_from_desc st env now query_value
      = retrieve_concept_codes_from_desc st env now query_value "url" := rfl

end OntoClient
